import Mathlib

/-!
Verification of the `ldap-proxy` core (src/src/proxy.rs and tests/tests.rs)
against its natural-language specification.

The Rust source is shallowly embedded: the per-connection state machine
`client_process` becomes a pure step function over an explicit environment
(the authorization map lookup, the backend connector's outcome, the backend
wire's replies, and whether writes to the client succeed), and the backend
client `BasicLdapClient` becomes a record whose `bind` consumes one wire
interaction. Machine integers (`i32` message counters) are modelled as `Int`
with explicit two's-complement wrapping.
-/

namespace LdapProxy

/-- Result codes of the LDAP protocol, as used by `proxy.rs`: the code only
distinguishes `Success` and `OperationsError` explicitly; every other code is
carried opaquely (`other`). `Busy` appears in tests/tests.rs. -/
inductive LdapResultCode
  | success
  | operationsError
  | busy
  | other (n : Nat)
  deriving DecidableEq

/-- Mirror of `ldap3_proto::LdapResult`: code, matched DN, diagnostic message,
referrals. -/
structure LdapResult where
  code : LdapResultCode
  matcheddn : String
  message : String
  referral : List String
  deriving DecidableEq

/-- Mirror of `ldap3_proto::LdapBindResponse`: a result plus optional SASL
credentials. -/
structure LdapBindResponse where
  res : LdapResult
  saslcreds : Option String
  deriving DecidableEq

/-- Mirror of `ldap3_proto::LdapBindRequest`: the DN offered for binding and
its credential. -/
structure LdapBindRequest where
  dn : String
  cred : String
  deriving DecidableEq

/-- Mirror of `ldap3_proto::LdapSearchRequest` (only the fields the proxy
would inspect; the search branch of the source is a placeholder). -/
structure LdapSearchRequest where
  base : String
  filter : String
  attrs : List String
  deriving DecidableEq

/-- Response controls are opaque pass-through values to this core. -/
abbrev LdapControl := String

/-- Mirror of `ldap3_proto::LdapOp`, restricted to the operation kinds the
proxy dispatches on (`BindRequest`, `UnbindRequest`, `SearchRequest`) plus a
representative sample of the remaining kinds, all of which fall into
`client_process`'s catch-all arm. -/
inductive LdapOp
  | bindRequest (lbr : LdapBindRequest)
  | bindResponse (br : LdapBindResponse)
  | unbindRequest
  | searchRequest (sr : LdapSearchRequest)
  | searchResultEntry (dn : String)
  | searchResultDone (r : LdapResult)
  | addRequest (dn : String)
  | modifyRequest (dn : String)
  | delRequest (dn : String)
  | compareRequest (dn : String)
  | extendedRequest (oid : String)
  deriving DecidableEq

/-- Mirror of `ldap3_proto::LdapMsg`: message id, operation, controls. -/
structure LdapMsg where
  msgid : Int
  op : LdapOp
  ctrl : List LdapControl
  deriving DecidableEq

/-- Modelled from the spec: `DnConfig` lives in the crate root, which is not
under `src/`; per the spec it is "an opaque capability object" associating a
bind DN with the searches it may issue. -/
structure DnConfig where
  allowedBases : List String
  deriving DecidableEq

/-- Mirror of `enum LdapError` in proxy.rs. -/
inductive LdapError
  | tlsError
  | connectError
  | transport
  | invalidProtocolState
  deriving DecidableEq

/-- Two's-complement wrap of an unbounded integer into the `i32` range,
modelling Rust release-mode overflow semantics of `msg_counter += 1`. -/
def wrap32 (x : Int) : Int := (x + 2 ^ 31) % 2 ^ 32 - 2 ^ 31

/-- Mirror of `struct BasicLdapClient`: the framed read/write halves are I/O
handles whose behaviour is supplied per call as a `BackendWire`; the
persistent state is the `i32` message counter. -/
structure BasicLdapClient where
  msg_counter : Int
  deriving DecidableEq

/-- One request/response interaction against the backend transport, as seen
by `BasicLdapClient::bind`: whether `w.send` succeeds, and what `r.next()`
yields — `none` models the connection closing, `some (.error ())` a decode
error, `some (.ok m)` a decoded message. -/
structure BackendWire where
  sendOk : Bool
  readResult : Option (Except Unit LdapMsg)

/-- Mirror of `BasicLdapClient::next_msgid`: increment the `i32` counter and
return its new value. -/
def BasicLdapClient.next_msgid (c : BasicLdapClient) : Int × BasicLdapClient :=
  let n := wrap32 (c.msg_counter + 1)
  (n, { msg_counter := n })

/-- Outcome of `BasicLdapClient::bind`: the client with its updated counter,
the messages passed to `w.send` toward the backend, and the call's result. -/
structure BindOutcome where
  client : BasicLdapClient
  sent : List LdapMsg
  result : Except LdapError (LdapBindResponse × List LdapControl)

/-- Mirror of `BasicLdapClient::bind` (proxy.rs lines 279-316): assign the
next session message id, send the bind request, then read one message:
a `BindResponse` is returned to the caller; any other operation kind is
`InvalidProtocolState`; a decode error or a closed connection is
`Transport`, as is a send failure. -/
def BasicLdapClient.bind (c : BasicLdapClient) (lbr : LdapBindRequest)
    (ctrl : List LdapControl) (wire : BackendWire) : BindOutcome :=
  let p := c.next_msgid
  let msg : LdapMsg := { msgid := p.1, op := .bindRequest lbr, ctrl := ctrl }
  if wire.sendOk then
    match wire.readResult with
    | some (.ok m2) =>
      match m2.op with
      | .bindResponse bind_resp => ⟨p.2, [msg], .ok (bind_resp, m2.ctrl)⟩
      | _ => ⟨p.2, [msg], .error .invalidProtocolState⟩
    | some (.error _) => ⟨p.2, [msg], .error .transport⟩
    | none => ⟨p.2, [msg], .error .transport⟩
  else ⟨p.2, [msg], .error .transport⟩

/-- Mirror of `enum ClientState` in proxy.rs. -/
inductive ClientState
  | unbound
  | authenticated (dn : String) (config : DnConfig) (client : BasicLdapClient)
  deriving DecidableEq

/-- The generic failure message `client_process` sends on any failed bind. -/
def genericBindMsg : String := "unable to bind"

/-- Mirror of `fn bind_operror`: an operations-error bind response under the
given message id. -/
def bind_operror (msgid : Int) (msg : String) : LdapMsg :=
  { msgid := msgid
    op := .bindResponse
      { res :=
          { code := .operationsError
            matcheddn := ""
            message := msg
            referral := [] }
        saslcreds := none }
    ctrl := [] }

/-- The environment one loop iteration of `client_process` interacts with:
the authorization map (`app_state.binddn_map`), the outcome
`BasicLdapClient::build` would produce, the backend wire behaviour for a
`bind` call, and whether `w.send` toward the client succeeds. -/
structure StepEnv where
  binddn_map : String → Option DnConfig
  buildResult : Except LdapError BasicLdapClient
  wire : BackendWire
  clientWriteOk : Bool

/-- Observable outcome of one iteration of `client_process`'s loop:
`cont = some s` means the loop continues in state `s` (a `continue` or a
fall-through with `next_state`), `cont = none` means the loop `break`s or the
task panics (the `todo!()` arm); `toClient` are the responses passed to
`w.send` toward the client, `toBackend` the messages forwarded to the
backend, and `buildAttempted` whether `BasicLdapClient::build` was called. -/
structure StepResult where
  cont : Option ClientState
  toClient : List LdapMsg
  toBackend : List LdapMsg
  buildAttempted : Bool
  deriving DecidableEq

/-- Mirror of the bind-request arm of `client_process` (proxy.rs lines
63-144 and the state update at lines 189-192). Note the source keeps the
prior state on a failed bind: the DN-not-found branch `continue`s and the
non-success branch yields `next_state = None`, so `state` is only replaced
on success. -/
def processBind (env : StepEnv) (s : ClientState) (msgid : Int)
    (lbr : LdapBindRequest) (ctrl : List LdapControl) : StepResult :=
  match env.binddn_map lbr.dn with
  | none =>
    if env.clientWriteOk
    then ⟨some s, [bind_operror msgid genericBindMsg], [], false⟩
    else ⟨none, [bind_operror msgid genericBindMsg], [], false⟩
  | some config =>
    match env.buildResult with
    | .error _ => ⟨none, [bind_operror msgid genericBindMsg], [], true⟩
    | .ok client =>
      let bo := client.bind lbr ctrl env.wire
      match bo.result with
      | .ok (bind_resp, ctrl2) =>
        let resp : LdapMsg := { msgid := msgid, op := .bindResponse bind_resp, ctrl := ctrl2 }
        if env.clientWriteOk then
          if bind_resp.res.code = .success
          then ⟨some (.authenticated lbr.dn config bo.client), [resp], bo.sent, true⟩
          else ⟨some s, [resp], bo.sent, true⟩
        else ⟨none, [resp], bo.sent, true⟩
      | .error _ => ⟨none, [bind_operror msgid genericBindMsg], bo.sent, true⟩

/-- Mirror of one iteration of `client_process`'s message loop (proxy.rs
lines 62-193): dispatch on `(current state, incoming message)`. Unbind
`break`s with no response; a search while authenticated is the source's
empty placeholder branch; everything else — a search while unbound
included — falls into the catch-all arm, which terminates the task
(`todo!()`) having sent nothing and contacted no backend. -/
def processMsg (env : StepEnv) (s : ClientState) (m : LdapMsg) : StepResult :=
  match m.op with
  | .bindRequest lbr => processBind env s m.msgid lbr m.ctrl
  | .unbindRequest => ⟨none, [], [], false⟩
  | .searchRequest _ =>
    match s with
    | .authenticated _ _ _ => ⟨some s, [], [], false⟩
    | .unbound => ⟨none, [], [], false⟩
  | _ => ⟨none, [], [], false⟩

/-- Outcome of one raced TCP connect attempt in `BasicLdapClient::build`:
the connection is established, `TcpStream::connect` returns an error, or the
5-second sleep wins the `select!`. -/
inductive ConnAttempt
  | ok
  | connErr
  | timeout
  deriving DecidableEq

/-- The fixed per-attempt connect timeout of `BasicLdapClient::build`
(`Duration::from_secs(5)`), in seconds. -/
def connectTimeoutSecs : Nat := 5

instance {ε α : Type} [DecidableEq ε] [DecidableEq α] : DecidableEq (Except ε α)
  | .ok a, .ok b =>
    if h : a = b then .isTrue (by rw [h]) else .isFalse (by simp [h])
  | .ok _, .error _ => .isFalse (by simp)
  | .error _, .ok _ => .isFalse (by simp)
  | .error a, .error b =>
    if h : a = b then .isTrue (by rw [h]) else .isFalse (by simp [h])

/-- Outcome of `BasicLdapClient::build`: the zero-based indices of the
addresses whose connect was attempted, in order, and the result. -/
structure BuildOutcome where
  attempted : List Nat
  result : Except LdapError BasicLdapClient
  deriving DecidableEq

/-- The connect loop of `BasicLdapClient::build` (proxy.rs lines 223-250)
over the per-address outcomes, starting at index `i`: a successful connect
breaks with its index; an error or a timeout advances to the next address;
an exhausted iterator means failure. Returns the attempted indices in order
and the index that succeeded, if any. -/
def buildLoop : List ConnAttempt → Nat → List Nat × Option Nat
  | [], _ => ([], none)
  | a :: rest, i =>
    match a with
    | .ok => ([i], some i)
    | .connErr => ((buildLoop rest (i + 1)).1.cons i, (buildLoop rest (i + 1)).2)
    | .timeout => ((buildLoop rest (i + 1)).1.cons i, (buildLoop rest (i + 1)).2)

/-- Mirror of `BasicLdapClient::build` (proxy.rs lines 217-277): each
candidate address is identified with the outcome its connect attempt would
have, and `tlsOk` is whether `Ssl::new`/`SslStream::connect` would succeed
on the established stream. Exhausting the addresses is `ConnectError`; a
handshake failure after a successful connect is `TlsError`; otherwise the
client starts with `msg_counter = 0`. -/
def build (conns : List ConnAttempt) (tlsOk : Bool) : BuildOutcome :=
  let p := buildLoop conns 0
  match p.2 with
  | none => ⟨p.1, .error .connectError⟩
  | some _ =>
    if tlsOk
    then ⟨p.1, .ok { msg_counter := 0 }⟩
    else ⟨p.1, .error .tlsError⟩

/-- Specification-side helper: index (offset by `i`) of the first address
whose connect attempt succeeds. -/
def firstOkAux : List ConnAttempt → Nat → Option Nat
  | [], _ => none
  | a :: rest, i => if a = .ok then some i else firstOkAux rest (i + 1)

/-- Specification-side helper: zero-based index of the first address whose
connect attempt succeeds. -/
def firstOk (conns : List ConnAttempt) : Option Nat :=
  firstOkAux conns 0

/-- The client state after `n` calls to `next_msgid`, starting from `c`. -/
def clientAfter (c : BasicLdapClient) : Nat → BasicLdapClient
  | 0 => c
  | n + 1 => ((clientAfter c n).next_msgid).2

/-- The message id returned by the `n`-th call (1-based) to `next_msgid` on
a client that started as `c`: `next_msgid` returns the counter's new value,
which is exactly the counter after `n` calls. -/
def msgidAt (c : BasicLdapClient) (n : Nat) : Int :=
  (clientAfter c n).msg_counter

/-- Run of `client_process` over a list of incoming messages, each paired
with the environment behaviour for its iteration; returns every message
passed to `w.send` toward the client, in order, stopping when an iteration
ends the session. -/
def clientRun (s : ClientState) : List (StepEnv × LdapMsg) → List LdapMsg
  | [] => []
  | (env, m) :: rest =>
    let r := processMsg env s m
    match r.cont with
    | some s2 => r.toClient ++ clientRun s2 rest
    | none => r.toClient

/-- One directory entry of a cached search result: a DN and its attributes
(name and values), as received from the backend. -/
structure SearchResultEntry where
  dn : String
  attributes : List (String × List String)
  deriving DecidableEq

/-- Modelled from the spec: `CachedValue` lives in the crate root, which is
not under `src/` (only `tests/tests.rs` references it). Per the spec it
holds an absolute expiry instant `valid_until` (modelled as a `Nat` tick),
the ordered `entries`, the terminating `result`, and the response controls
`ctrl`. -/
structure CachedValue where
  valid_until : Nat
  entries : List SearchResultEntry
  result : LdapResult
  ctrl : List LdapControl
  deriving DecidableEq

/-- Estimated byte footprint of one cached entry: its variable-length
fields' lengths. -/
def SearchResultEntry.size (e : SearchResultEntry) : Nat :=
  e.dn.length + (e.attributes.map (fun a => a.1.length + (a.2.map String.length).sum)).sum

/-- Estimated byte footprint of the terminating result: its variable-length
fields' lengths. -/
def LdapResult.size (r : LdapResult) : Nat :=
  r.matcheddn.length + r.message.length + (r.referral.map String.length).sum

/-- Modelled from the spec: `CachedValue::size()` is absent from `src/`;
per the spec it is "a deterministic estimated byte footprint (structural
overhead + sum of variable-length field lengths)" computed from `entries`,
`result` and `ctrl`. The structural overhead constant is fixed so that the
repository's own test input (`tests/tests.rs` lines 23-37) reports 144. -/
def CachedValue.size (cv : CachedValue) : Nat :=
  134 + (cv.entries.map SearchResultEntry.size).sum + cv.result.size
    + (cv.ctrl.map String.length).sum

/-! Concrete fixtures used by witnesses and counterexamples. -/

/-- A sample authorization-map entry. -/
def cfgDemo : DnConfig := ⟨["ou=people"]⟩

/-- A sample bind request. -/
def lbrDemo : LdapBindRequest := ⟨"cn=user,dc=example,dc=com", "password"⟩

/-- A successful backend bind response. -/
def brSuccess : LdapBindResponse := ⟨⟨.success, "", "", []⟩, none⟩

/-- A non-success backend bind response (result code `Busy`). -/
def brBusy : LdapBindResponse := ⟨⟨.busy, "", "backend busy", []⟩, none⟩

/-- A backend bind-response message; its backend-side id 123 differs from
any client-side id used in witnesses. -/
def msgBackendResp : LdapMsg := ⟨123, .bindResponse brSuccess, ["ctl"]⟩

/-- A backend bind-response message carrying the non-success response. -/
def msgBackendBusy : LdapMsg := ⟨123, .bindResponse brBusy, ["ctl"]⟩

/-- A backend client whose counter is mid-session. -/
def clientDemo : BasicLdapClient := ⟨41⟩

/-- An authenticated session state. -/
def stateAuth : ClientState :=
  .authenticated "cn=admin,dc=example,dc=com" cfgDemo clientDemo

/-- A client bind request message with client-side id 7. -/
def mBind7 : LdapMsg := ⟨7, .bindRequest lbrDemo, []⟩

/-- Environment in which the offered DN is absent from the authorization
map. -/
def envNone : StepEnv := ⟨fun _ => none, .error .connectError, ⟨true, none⟩, true⟩

/-- Environment in which the DN is authorized, the connector yields a fresh
client, and the backend answers the bind with success. -/
def envBindOk : StepEnv :=
  ⟨fun _ => some cfgDemo, .ok ⟨0⟩, ⟨true, some (.ok msgBackendResp)⟩, true⟩

/-- Environment in which the DN is authorized but the backend answers the
bind with a non-success code. -/
def envBindBusy : StepEnv :=
  ⟨fun _ => some cfgDemo, .ok ⟨0⟩, ⟨true, some (.ok msgBackendBusy)⟩, true⟩

/-- The terminating result used by the repository's `test_cachedvalue`. -/
def resDemo : LdapResult := ⟨.busy, "dn=doo", "ohno", []⟩

/-- A cached value expiring at tick 60. -/
def cvA : CachedValue := ⟨60, [], resDemo, []⟩

/-- The same cached value except for a different expiry instant. -/
def cvB : CachedValue := ⟨3600, [], resDemo, []⟩

/-! Theorems. -/

/-- Sanity check against the repository's own test (`test_cachedvalue` in
tests/tests.rs): the modelled `size()` reports 144 on the test's input. -/
theorem cachedvalue_test_size : (CachedValue.mk 60 [] resDemo []).size = 144 := by
  decide

/-- Claim C6: for every incoming message whose operation kind is outside
bind/unbind/search, in any session state — and for a search received while
`Unbound` — the session terminates without sending any response to the
client and without forwarding anything to a backend. -/
theorem c6_unsupported_op_terminates_silently :
    ∀ (env : StepEnv) (s : ClientState) (m : LdapMsg),
    ((∀ lbr, m.op ≠ .bindRequest lbr) → m.op ≠ .unbindRequest →
      (∀ sr, m.op ≠ .searchRequest sr) →
      processMsg env s m = ⟨none, [], [], false⟩) ∧
    (∀ sr, m.op = .searchRequest sr → s = .unbound →
      processMsg env s m = ⟨none, [], [], false⟩) := by
  intro env s m
  obtain ⟨msgid, op, ctrl⟩ := m
  constructor
  · intro h1 h2 h3
    cases op with
    | bindRequest lbr => exact absurd rfl (h1 lbr)
    | unbindRequest => exact absurd rfl h2
    | searchRequest sr => exact absurd rfl (h3 sr)
    | bindResponse br => rfl
    | searchResultEntry dn => rfl
    | searchResultDone r => rfl
    | addRequest dn => rfl
    | modifyRequest dn => rfl
    | delRequest dn => rfl
    | compareRequest dn => rfl
    | extendedRequest oid => rfl
  · intro sr hop hs
    cases hop
    cases hs
    rfl

/-- Witness for C6: a concrete `AddRequest` while authenticated, and a
concrete search while unbound, both terminate with nothing sent. -/
theorem c6_witness :
    processMsg envBindOk stateAuth ⟨3, .addRequest "cn=x", []⟩
      = ⟨none, [], [], false⟩ ∧
    processMsg envBindOk ClientState.unbound ⟨4, .searchRequest ⟨"ou=people", "(cn=x)", []⟩, []⟩
      = ⟨none, [], [], false⟩ :=
  ⟨(c6_unsupported_op_terminates_silently envBindOk stateAuth ⟨3, .addRequest "cn=x", []⟩).1
      (fun lbr => by simp) (by simp) (fun sr => by simp),
   (c6_unsupported_op_terminates_silently envBindOk .unbound
      ⟨4, .searchRequest ⟨"ou=people", "(cn=x)", []⟩, []⟩).2 ⟨"ou=people", "(cn=x)", []⟩ rfl rfl⟩

/-- Claim C8: an unbind request, received in any session state, terminates
the session immediately — no build, no backend traffic, no response for the
unbind — and nothing is ever written to the client afterwards either. -/
theorem c8_unbind_terminates_session :
    ∀ (env : StepEnv) (s : ClientState) (msgid : Int) (ctrl : List LdapControl)
      (rest : List (StepEnv × LdapMsg)),
    processMsg env s ⟨msgid, .unbindRequest, ctrl⟩ = ⟨none, [], [], false⟩ ∧
    clientRun s ((env, ⟨msgid, .unbindRequest, ctrl⟩) :: rest) = [] := by
  intro env s msgid ctrl rest
  exact ⟨rfl, rfl⟩

/-- Claim C9: `CachedValue.size` depends only on the `entries`, `result`
and `ctrl` fields; the expiry instant `valid_until` never influences it. -/
theorem c9_size_independent_of_valid_until :
    ∀ (cv1 cv2 : CachedValue), cv1.entries = cv2.entries →
    cv1.result = cv2.result → cv1.ctrl = cv2.ctrl → cv1.size = cv2.size := by
  intro cv1 cv2 h1 h2 h3
  simp [CachedValue.size, h1, h2, h3]

/-- Witness for C9: two concrete cached values differing only in
`valid_until` (ticks 60 vs 3600) report the same size. -/
theorem c9_witness : cvA.size = cvB.size :=
  c9_size_independent_of_valid_until cvA cvB rfl rfl rfl

/-- Claim C3 (amended): `BasicLdapClient::bind` transmits exactly one
message (no retry); a write failure, a read decode failure, and the
connection closing before a response all yield a transport error, while a
decoded message of the wrong operation kind yields a protocol-state error.
The original claim classed "connection closed before any response" as a
protocol-state error; the code returns `Transport` there. -/
theorem c3_bind_error_classification :
    ∀ (c : BasicLdapClient) (lbr : LdapBindRequest) (ctrl : List LdapControl)
      (wire : BackendWire),
    (c.bind lbr ctrl wire).sent
        = [⟨wrap32 (c.msg_counter + 1), .bindRequest lbr, ctrl⟩] ∧
    (wire.sendOk = false → (c.bind lbr ctrl wire).result = .error .transport) ∧
    (∀ e, wire.readResult = some (.error e) →
      (c.bind lbr ctrl wire).result = .error .transport) ∧
    (wire.readResult = none → (c.bind lbr ctrl wire).result = .error .transport) ∧
    (∀ m2, wire.sendOk = true → wire.readResult = some (.ok m2) →
      (∀ br, m2.op ≠ .bindResponse br) →
      (c.bind lbr ctrl wire).result = .error .invalidProtocolState) := by
  intro c lbr ctrl wire
  obtain ⟨sendOk, readResult⟩ := wire
  refine ⟨?_, ?_, ?_, ?_, ?_⟩
  · rcases readResult with _ | (e | m2)
    · cases sendOk <;> rfl
    · cases sendOk <;> rfl
    · cases sendOk
      · rfl
      · obtain ⟨mid2, op2, ctrl2⟩ := m2
        cases op2 <;> rfl
  · intro h
    cases h
    rfl
  · intro e h
    cases h
    cases sendOk <;> rfl
  · intro h
    cases h
    cases sendOk <;> rfl
  · intro m2 hs hr hop
    cases hs
    cases hr
    obtain ⟨mid2, op2, ctrl2⟩ := m2
    cases op2 with
    | bindResponse br => exact absurd rfl (hop br)
    | bindRequest lbr2 => rfl
    | unbindRequest => rfl
    | searchRequest sr => rfl
    | searchResultEntry dn => rfl
    | searchResultDone r => rfl
    | addRequest dn => rfl
    | modifyRequest dn => rfl
    | delRequest dn => rfl
    | compareRequest dn => rfl
    | extendedRequest oid => rfl

/-- Counterexample for C3: at the concrete input where the backend closes
the connection before any response (`readResult = none`), `bind` returns
`Transport`, not the protocol-state error the claim requires. -/
theorem c3_counterexample :
    (BasicLdapClient.bind ⟨41⟩ lbrDemo [] ⟨true, none⟩).result
        = .error .transport ∧
    LdapError.transport ≠ LdapError.invalidProtocolState := by
  exact ⟨rfl, by simp⟩

/-- Witness for C3 (amended): each failure shape at a concrete input. -/
theorem c3_witness :
    (BasicLdapClient.bind ⟨41⟩ lbrDemo [] ⟨false, none⟩).result
        = .error .transport ∧
    (BasicLdapClient.bind ⟨41⟩ lbrDemo [] ⟨true, some (.error ())⟩).result
        = .error .transport ∧
    (BasicLdapClient.bind ⟨41⟩ lbrDemo [] ⟨true, some (.ok ⟨5, .unbindRequest, []⟩)⟩).result
        = .error .invalidProtocolState ∧
    (BasicLdapClient.bind ⟨41⟩ lbrDemo ["c1"] ⟨true, some (.ok msgBackendResp)⟩).sent
        = [⟨wrap32 (41 + 1), .bindRequest lbrDemo, ["c1"]⟩] :=
  ⟨(c3_bind_error_classification ⟨41⟩ lbrDemo [] ⟨false, none⟩).2.1 rfl,
   (c3_bind_error_classification ⟨41⟩ lbrDemo [] ⟨true, some (.error ())⟩).2.2.1 () rfl,
   (c3_bind_error_classification ⟨41⟩ lbrDemo [] ⟨true, some (.ok ⟨5, .unbindRequest, []⟩)⟩).2.2.2.2
      ⟨5, .unbindRequest, []⟩ rfl rfl (fun br => by simp),
   (c3_bind_error_classification ⟨41⟩ lbrDemo ["c1"] ⟨true, some (.ok msgBackendResp)⟩).1⟩

/-- Claim C10: the proxy re-numbers bind requests toward the backend — the
forwarded bind carries the session-assigned identifier (the successor of
the backend counter, independent of the client's id), while the response
relayed to the client carries the client's original message id, independent
of both the backend counter and the backend response's id. -/
theorem c10_bind_msgid_renumbering :
    ∀ (env : StepEnv) (s : ClientState) (m : LdapMsg) (lbr : LdapBindRequest)
      (cfg : DnConfig) (client : BasicLdapClient) (m2 : LdapMsg)
      (br : LdapBindResponse),
    m.op = .bindRequest lbr →
    env.binddn_map lbr.dn = some cfg →
    env.buildResult = .ok client →
    env.wire.sendOk = true →
    env.wire.readResult = some (.ok m2) →
    m2.op = .bindResponse br →
    (processMsg env s m).toBackend
        = [⟨wrap32 (client.msg_counter + 1), .bindRequest lbr, m.ctrl⟩] ∧
    (processMsg env s m).toClient = [⟨m.msgid, .bindResponse br, m2.ctrl⟩] := by
  intro env s m lbr cfg client m2 br hop hmap hbuild hsend hread hop2
  obtain ⟨msgid, op, ctrl⟩ := m
  cases hop
  simp only [processMsg, processBind, hmap, hbuild]
  simp only [BasicLdapClient.bind, BasicLdapClient.next_msgid, hsend, hread, hop2,
    if_true]
  by_cases hc : br.res.code = .success <;>
    cases hw : env.clientWriteOk <;> simp [hc, hw]

/-- Claim C1 (amended): a bind whose DN is absent from the authorization
map yields the generic operations-error response, and a bind the backend
answers with a non-success code relays the backend's response — but in both
cases the session keeps its *prior* state (the DN-not-found arm `continue`s
and the non-success arm yields `next_state = None`): an `Unbound` session
stays `Unbound`, while an `Authenticated` session remains `Authenticated`
with its old identity, rather than returning to `Unbound` as the original
claim states. -/
theorem c1_failed_bind_keeps_prior_state :
    ∀ (env : StepEnv) (s : ClientState) (m : LdapMsg) (lbr : LdapBindRequest),
    m.op = .bindRequest lbr → env.clientWriteOk = true →
    (env.binddn_map lbr.dn = none →
      processMsg env s m
        = ⟨some s, [bind_operror m.msgid genericBindMsg], [], false⟩) ∧
    (∀ (cfg : DnConfig) (client : BasicLdapClient) (m2 : LdapMsg)
       (br : LdapBindResponse),
      env.binddn_map lbr.dn = some cfg →
      env.buildResult = .ok client →
      env.wire.sendOk = true →
      env.wire.readResult = some (.ok m2) →
      m2.op = .bindResponse br →
      br.res.code ≠ .success →
      processMsg env s m
        = ⟨some s, [⟨m.msgid, .bindResponse br, m2.ctrl⟩],
           [⟨wrap32 (client.msg_counter + 1), .bindRequest lbr, m.ctrl⟩], true⟩) := by
  intro env s m lbr hop hw
  obtain ⟨msgid, op, ctrl⟩ := m
  cases hop
  constructor
  · intro hmap
    simp [processMsg, processBind, hmap, hw]
  · intro cfg client m2 br hmap hbuild hsend hread hop2 hcode
    simp only [processMsg, processBind, hmap, hbuild]
    simp only [BasicLdapClient.bind, BasicLdapClient.next_msgid, hsend, hread, hop2,
      if_true]
    simp [hw, hcode]

/-- Counterexample for C1: a concrete bind with an unmapped DN received
while `Authenticated` elicits the operations-error response as claimed, but
the state after handling it is the prior `Authenticated` state, not
`Unbound`. -/
theorem c1_counterexample :
    (processMsg envNone stateAuth mBind7).toClient
        = [bind_operror 7 genericBindMsg] ∧
    (processMsg envNone stateAuth mBind7).cont = some stateAuth ∧
    (processMsg envNone stateAuth mBind7).cont ≠ some ClientState.unbound := by
  refine ⟨rfl, rfl, ?_⟩
  decide

/-- Witness for C1 (amended): the DN-not-found case from `Unbound` and the
backend-busy case from `Authenticated`, at concrete inputs. -/
theorem c1_witness :
    processMsg envNone ClientState.unbound mBind7
      = ⟨some .unbound, [bind_operror 7 genericBindMsg], [], false⟩ ∧
    processMsg envBindBusy stateAuth mBind7
      = ⟨some stateAuth, [⟨7, .bindResponse brBusy, ["ctl"]⟩],
         [⟨wrap32 (0 + 1), .bindRequest lbrDemo, []⟩], true⟩ :=
  ⟨(c1_failed_bind_keeps_prior_state envNone .unbound mBind7 lbrDemo rfl rfl).1 rfl,
   (c1_failed_bind_keeps_prior_state envBindBusy stateAuth mBind7 lbrDemo rfl rfl).2
      cfgDemo ⟨0⟩ msgBackendBusy brBusy rfl rfl rfl rfl rfl (by decide)⟩

/-- Claim C2 (amended): handling of a bind request never inspects the prior
session state — the responses to the client, the traffic to the backend,
whether the connector is invoked, and whether the session terminates are
identical from any two prior states; and either the bind replaces the state
(both runs reach the same successor) or it fails, in which case each run
*retains its own prior state* (the prior state, including its backend
session, is not discarded on a failed bind, contrary to the original
claim's "same successor state"). -/
theorem c2_bind_state_independent :
    ∀ (env : StepEnv) (m : LdapMsg) (lbr : LdapBindRequest)
      (s1 s2 : ClientState),
    m.op = .bindRequest lbr →
    (processMsg env s1 m).toClient = (processMsg env s2 m).toClient ∧
    (processMsg env s1 m).toBackend = (processMsg env s2 m).toBackend ∧
    (processMsg env s1 m).buildAttempted = (processMsg env s2 m).buildAttempted ∧
    (((processMsg env s1 m).cont = some s1 ∧ (processMsg env s2 m).cont = some s2) ∨
      (processMsg env s1 m).cont = (processMsg env s2 m).cont) := by
  intro env m lbr s1 s2 hop
  obtain ⟨msgid, op, ctrl⟩ := m
  cases hop
  simp only [processMsg]
  cases hmap : env.binddn_map lbr.dn with
  | none =>
    cases hw : env.clientWriteOk <;> simp [processBind, hmap, hw]
  | some cfg =>
    cases hbuild : env.buildResult with
    | error e => simp [processBind, hmap, hbuild]
    | ok client =>
      cases hr : (client.bind lbr ctrl env.wire).result with
      | ok pr =>
        obtain ⟨br, ctrl2⟩ := pr
        by_cases hc : br.res.code = .success <;>
          cases hw : env.clientWriteOk <;>
          simp [processBind, hmap, hbuild, hr, hw, hc]
      | error e => simp [processBind, hmap, hbuild, hr]

/-- Counterexample for C2: for a concrete bind with an unmapped DN, the two
runs from `Unbound` and from `Authenticated` produce different successor
states, refuting the claimed two-run equality. -/
theorem c2_counterexample :
    (processMsg envNone ClientState.unbound mBind7).cont
      ≠ (processMsg envNone stateAuth mBind7).cont := by
  decide

/-- Witness for C2 (amended): a concrete successful re-bind from `Unbound`
and from `Authenticated` — same responses, same backend traffic, and the
successor states agree (second disjunct). -/
theorem c2_witness :
    (processMsg envBindOk ClientState.unbound mBind7).toClient
        = (processMsg envBindOk stateAuth mBind7).toClient ∧
    (processMsg envBindOk ClientState.unbound mBind7).toBackend
        = (processMsg envBindOk stateAuth mBind7).toBackend ∧
    (processMsg envBindOk ClientState.unbound mBind7).buildAttempted
        = (processMsg envBindOk stateAuth mBind7).buildAttempted ∧
    (((processMsg envBindOk ClientState.unbound mBind7).cont = some .unbound ∧
        (processMsg envBindOk stateAuth mBind7).cont = some stateAuth) ∨
      (processMsg envBindOk ClientState.unbound mBind7).cont
        = (processMsg envBindOk stateAuth mBind7).cont) :=
  c2_bind_state_independent envBindOk mBind7 lbrDemo .unbound stateAuth rfl

/-- Witness for C10: client binds with id 7, the backend responds under its
own id 123 while the session counter assigns id 1; the client sees id 7. -/
theorem c10_witness :
    (processMsg envBindOk ClientState.unbound mBind7).toBackend
        = [⟨wrap32 (0 + 1), .bindRequest lbrDemo, []⟩] ∧
    (processMsg envBindOk ClientState.unbound mBind7).toClient
        = [⟨7, .bindResponse brSuccess, ["ctl"]⟩] :=
  c10_bind_msgid_renumbering envBindOk .unbound mBind7 lbrDemo cfgDemo ⟨0⟩
    msgBackendResp brSuccess rfl rfl rfl rfl rfl rfl

/-- If the first successful connect in `conns`, counting from offset `i`,
is at index `k`, then `i ≤ k`. -/
theorem firstOkAux_ge :
    ∀ (conns : List ConnAttempt) (i k : Nat), firstOkAux conns i = some k → i ≤ k := by
  intro conns
  induction conns with
  | nil =>
    intro i k h
    simp [firstOkAux] at h
  | cons a rest ih =>
    intro i k h
    by_cases ha : a = ConnAttempt.ok
    · have : i = k := by simpa [firstOkAux, ha] using h
      omega
    · have h2 : firstOkAux rest (i + 1) = some k := by simpa [firstOkAux, ha] using h
      have := ih (i + 1) k h2
      omega

/-- When no address connects, the connect loop attempts every index from
`i` on, in order, and reports no success. -/
theorem buildLoop_of_none :
    ∀ (conns : List ConnAttempt) (i : Nat), firstOkAux conns i = none →
    buildLoop conns i = (List.range' i conns.length, none) := by
  intro conns
  induction conns with
  | nil => intro i _; rfl
  | cons a rest ih =>
    intro i h
    cases a with
    | ok => simp [firstOkAux] at h
    | connErr =>
      have h2 : firstOkAux rest (i + 1) = none := by simpa [firstOkAux] using h
      show ((buildLoop rest (i + 1)).1.cons i, (buildLoop rest (i + 1)).2)
          = (List.range' i (rest.length + 1), none)
      rw [ih (i + 1) h2]
      rfl
    | timeout =>
      have h2 : firstOkAux rest (i + 1) = none := by simpa [firstOkAux] using h
      show ((buildLoop rest (i + 1)).1.cons i, (buildLoop rest (i + 1)).2)
          = (List.range' i (rest.length + 1), none)
      rw [ih (i + 1) h2]
      rfl

/-- When the first successful connect from offset `i` is at index `k`, the
connect loop attempts exactly indices `i..k`, in order, and succeeds at
`k`. -/
theorem buildLoop_of_some :
    ∀ (conns : List ConnAttempt) (i k : Nat), firstOkAux conns i = some k →
    buildLoop conns i = (List.range' i (k + 1 - i), some k) := by
  intro conns
  induction conns with
  | nil =>
    intro i k h
    simp [firstOkAux] at h
  | cons a rest ih =>
    intro i k h
    cases a with
    | ok =>
      have hik : i = k := by simpa [firstOkAux] using h
      subst hik
      have h1 : i + 1 - i = 1 := by omega
      show ([i], some i) = (List.range' i (i + 1 - i), some i)
      rw [h1]
      rfl
    | connErr =>
      have h2 : firstOkAux rest (i + 1) = some k := by simpa [firstOkAux] using h
      have hk : i + 1 ≤ k := firstOkAux_ge rest (i + 1) k h2
      have h1 : k + 1 - i = (k + 1 - (i + 1)) + 1 := by omega
      show ((buildLoop rest (i + 1)).1.cons i, (buildLoop rest (i + 1)).2)
          = (List.range' i (k + 1 - i), some k)
      rw [ih (i + 1) k h2, h1]
      rfl
    | timeout =>
      have h2 : firstOkAux rest (i + 1) = some k := by simpa [firstOkAux] using h
      have hk : i + 1 ≤ k := firstOkAux_ge rest (i + 1) k h2
      have h1 : k + 1 - i = (k + 1 - (i + 1)) + 1 := by omega
      show ((buildLoop rest (i + 1)).1.cons i, (buildLoop rest (i + 1)).2)
          = (List.range' i (k + 1 - i), some k)
      rw [ih (i + 1) k h2, h1]
      rfl

/-- Claim C5: `BasicLdapClient::build` attempts the candidate addresses
strictly in the order given, racing each connect against the fixed 5-second
timeout; a connect error or a timeout advances to the next address; an
empty list fails with a connection error without attempting anything, and
so does a list on which every attempt fails or times out. -/
theorem c5_build_failover_in_order :
    (∀ tlsOk, build [] tlsOk = ⟨[], .error .connectError⟩) ∧
    (∀ (conns : List ConnAttempt) (tlsOk : Bool), firstOk conns = none →
      build conns tlsOk = ⟨List.range conns.length, .error .connectError⟩) ∧
    (∀ (conns : List ConnAttempt) (tlsOk : Bool) (k : Nat), firstOk conns = some k →
      (build conns tlsOk).attempted = List.range (k + 1)) ∧
    connectTimeoutSecs = 5 := by
  refine ⟨fun tlsOk => rfl, ?_, ?_, rfl⟩
  · intro conns tlsOk h
    have h0 : firstOkAux conns 0 = none := h
    have hb := buildLoop_of_none conns 0 h0
    simp [build, hb, List.range_eq_range']
  · intro conns tlsOk k h
    have h0 : firstOkAux conns 0 = some k := h
    have hb := buildLoop_of_some conns 0 k h0
    cases tlsOk <;> simp [build, hb, List.range_eq_range']

/-- Witness for C5: the empty list, a list where every attempt fails, and a
list whose second address connects, at concrete inputs. -/
theorem c5_witness :
    build [] true = ⟨[], .error .connectError⟩ ∧
    build [.connErr, .timeout] true = ⟨List.range 2, .error .connectError⟩ ∧
    (build [.connErr, .ok, .connErr] true).attempted = List.range 2 :=
  ⟨c5_build_failover_in_order.1 true,
   c5_build_failover_in_order.2.1 [.connErr, .timeout] true rfl,
   c5_build_failover_in_order.2.2.1 [.connErr, .ok, .connErr] true 1 rfl⟩

/-- Claim C7: a TLS handshake failure after a successful connect makes
`build` return a TLS error at once — the attempted indices stop at the
connected address, so no remaining candidate is tried. -/
theorem c7_tls_failure_stops_failover :
    ∀ (conns : List ConnAttempt) (k : Nat), firstOk conns = some k →
    build conns false = ⟨List.range (k + 1), .error .tlsError⟩ := by
  intro conns k h
  have h0 : firstOkAux conns 0 = some k := h
  have hb := buildLoop_of_some conns 0 k h0
  simp [build, hb, List.range_eq_range']

/-- Witness for C7: two candidate addresses, the first connects, the
handshake fails — only index 0 is attempted. -/
theorem c7_witness :
    build [.ok, .ok] false = ⟨List.range 1, .error .tlsError⟩ :=
  c7_tls_failure_stops_failover [.ok, .ok] 0 rfl

/-- `wrap32` is the identity on the `i32` range. -/
theorem wrap32_of_mem_range :
    ∀ x : Int, -(2 ^ 31) ≤ x → x < 2 ^ 31 → wrap32 x = x := by
  intro x h1 h2
  have e32 : (2 : Int) ^ 32 = 4294967296 := by norm_num
  have e31 : (2 : Int) ^ 31 = 2147483648 := by norm_num
  rw [wrap32, e32, e31]
  rw [e31] at h1 h2
  omega

/-- Wrapping is a congruence for increment: incrementing a wrapped value
and wrapping agrees with wrapping the incremented value. -/
theorem wrap32_succ_congr : ∀ x : Int, wrap32 (wrap32 x + 1) = wrap32 (x + 1) := by
  intro x
  have e32 : (2 : Int) ^ 32 = 4294967296 := by norm_num
  have e31 : (2 : Int) ^ 31 = 2147483648 := by norm_num
  simp only [wrap32, e32, e31]
  omega

/-- Closed form of the message counter: after `n` calls to `next_msgid` on
a fresh client, the counter is `n` wrapped into the `i32` range. -/
theorem clientAfter_counter :
    ∀ n : Nat, (clientAfter ⟨0⟩ n).msg_counter = wrap32 (n : Int) := by
  intro n
  induction n with
  | zero =>
    show (0 : Int) = wrap32 0
    rw [wrap32_of_mem_range 0 (by norm_num) (by norm_num)]
  | succ n ih =>
    show wrap32 ((clientAfter ⟨0⟩ n).msg_counter + 1) = wrap32 ((n + 1 : Nat) : Int)
    rw [ih, wrap32_succ_congr]
    push_cast
    rfl

/-- Claim C4 (amended): a client built by `BasicLdapClient::build` starts
with counter 0, its first assigned message id is 1, and as long as fewer
than `2^31` ids have been assigned the ids equal the call index — hence
each is exactly one greater than the previous and none repeats. Beyond
that the `i32` counter wraps, so the original unconditional "never repeat"
fails. -/
theorem c4_msgid_monotone_until_wrap :
    ∀ (conns : List ConnAttempt) (c : BasicLdapClient),
    (build conns true).result = .ok c →
    c.msg_counter = 0 ∧
    msgidAt c 1 = 1 ∧
    (∀ n : Nat, (n : Int) < 2 ^ 31 → msgidAt c n = n) ∧
    (∀ m n : Nat, m < n → (n : Int) < 2 ^ 31 → msgidAt c m ≠ msgidAt c n) ∧
    (∀ n : Nat, ((n : Int) + 1) < 2 ^ 31 → msgidAt c (n + 1) = msgidAt c n + 1) := by
  intro conns c h
  have hc : c = ⟨0⟩ := by
    rcases hb : (buildLoop conns 0).2 with _ | j <;> simp [build, hb] at h
    exact h.symm
  subst hc
  have hself : ∀ n : Nat, (n : Int) < 2 ^ 31 → msgidAt ⟨0⟩ n = n := by
    intro n hn
    rw [msgidAt, clientAfter_counter n]
    exact wrap32_of_mem_range n (le_trans (by norm_num) (Int.ofNat_nonneg n)) hn
  refine ⟨rfl, hself 1 (by norm_num), hself, ?_, ?_⟩
  · intro m n hmn hn
    rw [hself m (by omega), hself n hn]
    intro hmn2
    exact absurd (Int.ofNat_inj.mp hmn2) (by omega)
  · intro n hn
    rw [hself n (by omega), hself (n + 1) (by push_cast; omega)]
    push_cast
    rfl

/-- Counterexample for C4: the `i32` counter wraps, so call 1 and call
`2^32 + 1` are assigned the same message id — ids do repeat within a
session that issues that many requests. -/
theorem c4_counterexample :
    msgidAt ⟨0⟩ 1 = msgidAt ⟨0⟩ (2 ^ 32 + 1) ∧ (1 : Nat) ≠ 2 ^ 32 + 1 := by
  constructor
  · rw [msgidAt, msgidAt, clientAfter_counter, clientAfter_counter]
    norm_num [wrap32]
  · norm_num

/-- Witness for C4 (amended): concrete ids below the wrap bound. -/
theorem c4_witness :
    msgidAt ⟨0⟩ 1 = 1 ∧ msgidAt ⟨0⟩ 5 = 5 ∧ msgidAt ⟨0⟩ 2 ≠ msgidAt ⟨0⟩ 7 :=
  ⟨(c4_msgid_monotone_until_wrap [.ok] ⟨0⟩ rfl).2.1,
   (c4_msgid_monotone_until_wrap [.ok] ⟨0⟩ rfl).2.2.1 5 (by norm_num),
   (c4_msgid_monotone_until_wrap [.ok] ⟨0⟩ rfl).2.2.2.1 2 7 (by norm_num) (by norm_num)⟩

end LdapProxy
